import Mathlib

/-!
Verification model of the `alexa-util` credential store and device-flow
authorization client (`src/config.rs`, `src/auth.rs`, `src/apis.rs`).

Modelling conventions:
- `chrono::DateTime<Utc>` is an `Int` counting nanoseconds since the Unix
  epoch; `timestamp()` (used by the serde `ts_seconds` codec) is floor
  division by `nsPerSec`, matching chrono's flooring behaviour.
- `serde_json::Value` is the inductive `Json`; the config file is held as a
  `Json` value (the text layer of printing/parsing is lossless on values and
  is not modelled). Struct deserialization is modelled by field-name lookup
  on JSON objects (serde's positional decoding of structs from JSON arrays
  is not exercised by this program and is omitted).
- Filesystem writes (`create_dir_all`, `File::create`) are modelled as
  always succeeding; a `ConfigState` pairs the in-memory `Config` with the
  on-disk contents (`none` = no file).
- Rust panics (`expect`, `unwrap`, `panic!`) are modelled as explicit
  outcome constructors, not as Lean failure.
-/

namespace AlexaUtil

/-- Model of `serde_json::Value` (numbers restricted to the integers this
program decodes: `i64`/`u64` fields). -/
inductive Json where
  | null : Json
  | bool : Bool → Json
  | num : Int → Json
  | str : String → Json
  | arr : List Json → Json
  | obj : List (String × Json) → Json

/-- Field lookup in a JSON object, as serde's map-based struct decoding
does; any non-object has no fields. -/
def findField : List (String × Json) → String → Option Json
  | [], _ => none
  | (k, v) :: rest, key => if k == key then some v else findField rest key

def Json.getField : Json → String → Option Json
  | .obj fields, key => findField fields key
  | _, _ => none

/-- Nanoseconds per second: the resolution of `chrono::DateTime<Utc>`
relative to the one-second resolution of the `ts_seconds` serde codec. -/
def nsPerSec : Int := 1000000000

/-- Model of `chrono`'s `DateTime::timestamp()`: whole seconds since the epoch,
flooring (used by `chrono::serde::ts_seconds_option`). -/
def timestampSec (t : Int) : Int := Int.fdiv t nsPerSec

/-- Struct `ConfigProfile` from `src/config.rs` (lines 84-94). `expires_at` is the
`DateTime<Utc>` model: nanoseconds since the epoch. -/
structure ConfigProfile where
  name : String
  vendor_id : Option String
  access_token : Option String
  refresh_token : Option String
  token_type : String
  expires_at : Option Int
deriving DecidableEq, Repr

/-- Function `ConfigProfile::new` (config.rs lines 96-106). -/
def ConfigProfile.new (name : String) : ConfigProfile :=
  { name := name
    vendor_id := none
    access_token := none
    refresh_token := none
    token_type := "Bearer"
    expires_at := none }

/-- Rust's wrapping cast `u64 as i64`: reduce modulo `2^64` (a `u64` value
is below `2^64` already), then reinterpret the high half as negative. -/
def u64AsI64 (n : Nat) : Int :=
  if n % 2 ^ 64 < 2 ^ 63 then ((n % 2 ^ 64 : Nat) : Int)
  else ((n % 2 ^ 64 : Nat) : Int) - 2 ^ 64

/-- Function `ConfigProfile::init` (config.rs lines 108-119). `Utc::now()` is passed
in as `now`; `Duration::seconds(expires_in as i64)` wraps the `u64`
argument through the `as i64` cast (so `u64::MAX` becomes `-1` second)
and contributes `u64AsI64 expires_in * nsPerSec` nanoseconds. The range
panics of `chrono` itself (`Duration::seconds` bounds, `DateTime`
addition overflow) for astronomically large magnitudes are outside the
unbounded-`Int` time model declared above. -/
def ConfigProfile.init (self : ConfigProfile) (access_token refresh_token : String)
    (expires_in : Nat) (vendor_id : String) (now : Int) : ConfigProfile :=
  { self with
    vendor_id := some vendor_id
    access_token := some access_token
    refresh_token := some refresh_token
    expires_at := some (now + u64AsI64 expires_in * nsPerSec) }

/-- Function `ConfigProfile::is_initialized` (config.rs lines 121-123). -/
def ConfigProfile.is_initialized (self : ConfigProfile) : Bool :=
  self.access_token.isSome

/-- Function `ConfigProfile::is_valid` (config.rs lines 125-131); `Utc::now()` is
passed in as `now`, and `expires_at > Utc::now()` is `now < e`. -/
def ConfigProfile.is_valid (self : ConfigProfile) (now : Int) : Bool :=
  self.is_initialized &&
    match self.expires_at with
    | some e => decide (now < e)
    | none => false

/-- Struct `Config` (config.rs lines 15-18). -/
structure Config where
  profiles : List ConfigProfile
deriving DecidableEq, Repr

/-- Function `Config::get_profile` (config.rs lines 36-38): exact-match `find` on
profile name. -/
def Config.get_profile (self : Config) (name : String) : Option ConfigProfile :=
  self.profiles.find? (fun p => p.name == name)

/-- Enum `errors::ConfigError` (config.rs lines 134-151); the `IoError` and
`SerdeError` payloads are not modelled. -/
inductive ConfigError where
  | AlreadyExists : ConfigError
  | NotFound : ConfigError
  | IoError : ConfigError
  | SerdeError : ConfigError
deriving DecidableEq, Repr

/-- Serialization of an `Option<String>` field by serde: `None` is `null`,
`Some s` is the string. -/
def optStrToJson : Option String → Json
  | none => .null
  | some s => .str s

/-- Serialization of `expires_at` by `chrono::serde::ts_seconds_option`:
`None` is `null`, `Some t` is `t.timestamp()` (whole seconds, floored). -/
def tsOptToJson : Option Int → Json
  | none => .null
  | some t => .num (timestampSec t)

/-- Model of serde serialization of a `ConfigProfile`: a JSON object with one member
per field, in declaration order. -/
def profileToJson (p : ConfigProfile) : Json :=
  .obj [("name", .str p.name),
        ("vendor_id", optStrToJson p.vendor_id),
        ("access_token", optStrToJson p.access_token),
        ("refresh_token", optStrToJson p.refresh_token),
        ("token_type", .str p.token_type),
        ("expires_at", tsOptToJson p.expires_at)]

/-- Model of serde serialization of a `Config`: `{"profiles": [...]}` (what
`serde_json::to_writer_pretty` writes in `Config::write`). -/
def configToJson (c : Config) : Json :=
  .obj [("profiles", .arr (c.profiles.map profileToJson))]

/-- Model of serde deserialization of a required `String` field. -/
def decodeStrField (j : Json) (key : String) : Option String :=
  match j.getField key with
  | some (.str s) => some s
  | _ => none

/-- Model of serde deserialization of an `Option<String>` field: a missing field or
`null` is `None`; a string is `Some`; anything else fails. -/
def decodeOptStrField (j : Json) (key : String) : Option (Option String) :=
  match j.getField key with
  | none => some none
  | some .null => some none
  | some (.str s) => some (some s)
  | some _ => none

/-- Deserialization of `expires_at` by `ts_seconds_option`: the field must
be present (`deserialize_with` forfeits serde's missing-`Option` default);
`null` is `None`, an integer `n` is the datetime at `n` whole seconds. -/
def decodeTsOptField (j : Json) (key : String) : Option (Option Int) :=
  match j.getField key with
  | some .null => some none
  | some (.num n) => some (some (n * nsPerSec))
  | _ => none

/-- Model of serde deserialization of a `ConfigProfile` from a JSON value. -/
def profileFromJson (j : Json) : Option ConfigProfile := do
  let name ← decodeStrField j "name"
  let vendor_id ← decodeOptStrField j "vendor_id"
  let access_token ← decodeOptStrField j "access_token"
  let refresh_token ← decodeOptStrField j "refresh_token"
  let token_type ← decodeStrField j "token_type"
  let expires_at ← decodeTsOptField j "expires_at"
  pure ⟨name, vendor_id, access_token, refresh_token, token_type, expires_at⟩

/-- Model of serde deserialization of a `Vec<ConfigProfile>` from a JSON
array: element-wise, failing if any element fails. -/
def decodeProfiles : List Json → Option (List ConfigProfile)
  | [] => some []
  | j :: rest => do
    let p ← profileFromJson j
    let ps ← decodeProfiles rest
    pure (p :: ps)

/-- Model of serde deserialization of a `Config` from a JSON value (what
`serde_json::from_reader` decodes in `Config::from_file`). -/
def configFromJson (j : Json) : Option Config := do
  match j.getField "profiles" with
  | some (.arr xs) => do
    let ps ← decodeProfiles xs
    pure ⟨ps⟩
  | _ => none

/-- The in-memory store paired with the contents of the store file at
`~/.alexa-util/config.json` (`none` = no file). -/
structure ConfigState where
  config : Config
  disk : Option Json

/-- Function `Config::write` (config.rs lines 50-56): serializes the full in-memory
profile list over the store file. Directory creation and file creation are
modelled as always succeeding. -/
def ConfigState.write (st : ConfigState) : ConfigState :=
  { st with disk := some (configToJson st.config) }

/-- Function `Config::add_profile` (config.rs lines 40-48): rejects a duplicate name
with `AlreadyExists` before any mutation; otherwise pushes the profile and
calls `Config::write`. Returned as (result, post-state) to model `&mut
self`. -/
def ConfigState.add_profile (st : ConfigState) (profile : ConfigProfile) :
    Except ConfigError Unit × ConfigState :=
  if (st.config.get_profile profile.name).isSome then
    (.error .AlreadyExists, st)
  else
    let st' : ConfigState := { st with config := ⟨st.config.profiles ++ [profile]⟩ }
    (.ok (), st'.write)

/-- Function `Config::from_file` (config.rs lines 64-68): opening a missing file is
an `IoError`; a file whose contents do not decode is a `SerdeError`. -/
def Config.from_file (disk : Option Json) : Except ConfigError Config :=
  match disk with
  | none => .error .IoError
  | some j =>
    match configFromJson j with
    | some c => .ok c
    | none => .error .SerdeError

/-- The spec's `update_profile_tokens(name, ...)`: obtaining the stored
profile of that name and calling `ConfigProfile::init` on it in place
(config.rs lines 108-119). `init` contains no call to `Config::write`, so
the disk component is untouched. -/
def ConfigState.update_profile_tokens (st : ConfigState) (name : String)
    (access_token refresh_token : String) (expires_in : Nat) (vendor_id : String)
    (now : Int) : ConfigState :=
  { st with
    config := ⟨st.config.profiles.map (fun p =>
      if p.name == name then p.init access_token refresh_token expires_in vendor_id now
      else p)⟩ }

/-- Enum `errors::AuthorizationError` (auth.rs lines 116-155); the `FetchError`
and `ParseError` payloads (`reqwest::Error`, `serde_json::Error`) are not
modelled. -/
inductive AuthorizationError where
  | InvalidRequest : AuthorizationError
  | UnauthorizedClient : AuthorizationError
  | AccessDenied : AuthorizationError
  | UnsupportedResponseType : AuthorizationError
  | InvalidScope : AuthorizationError
  | ServerError : AuthorizationError
  | TemporarilyUnavailable : AuthorizationError
  | AuthorizationPending : AuthorizationError
  | SlowDown : AuthorizationError
  | ExpiredToken : AuthorizationError
  | FetchError : AuthorizationError
  | ParseError : AuthorizationError
deriving DecidableEq, Repr

/-- Struct `models::ErrorResponse` (auth.rs lines 179-183). -/
structure ErrorResponse where
  error : String
  error_description : Option String
deriving DecidableEq, Repr

/-- Struct `models::CodePairResponse` (auth.rs lines 185-192); `expires_in` is
`i64`, `interval` is `u64` (a `Nat`). -/
structure CodePairResponse where
  user_code : String
  device_code : String
  verification_uri : String
  expires_in : Int
  interval : Nat
deriving DecidableEq, Repr

/-- Struct `models::TokenResponse` (auth.rs lines 194-200); `expires_in` is `u64`
(a `Nat`). -/
structure TokenResponse where
  access_token : String
  refresh_token : String
  token_type : String
  expires_in : Nat
deriving DecidableEq, Repr

/-- Function `AuthorizationError::from_error_response` (auth.rs lines 157-173):
maps the ten known code strings to variants; any other code string hits
the catch-all arm, which panics ("Unknown error type"), modelled as
`none`. -/
def AuthorizationError.from_error_response (res : ErrorResponse) :
    Option AuthorizationError :=
  match res.error with
  | "invalid_request" => some .InvalidRequest
  | "unauthorized_client" => some .UnauthorizedClient
  | "access_denied" => some .AccessDenied
  | "unsupported_response_type" => some .UnsupportedResponseType
  | "invalid_scope" => some .InvalidScope
  | "server_error" => some .ServerError
  | "temporarily_unavailable" => some .TemporarilyUnavailable
  | "authorization_pending" => some .AuthorizationPending
  | "slow_down" => some .SlowDown
  | "expired_token" => some .ExpiredToken
  | _ => none

/-- Model of serde deserialization of an `i64` field. -/
def decodeIntField (j : Json) (key : String) : Option Int :=
  match j.getField key with
  | some (.num n) => some n
  | _ => none

/-- Model of serde deserialization of a `u64` field: a negative integer fails. -/
def decodeNatField (j : Json) (key : String) : Option Nat :=
  match j.getField key with
  | some (.num n) => if 0 ≤ n then some n.toNat else none
  | _ => none

/-- Model of `serde_json::from_value::<ErrorResponse>`: requires the `error` string
field; `error_description` is a plain `Option<String>` (missing or `null`
is `None`). Unknown fields are ignored. -/
def decodeErrorResponse (j : Json) : Option ErrorResponse := do
  let error ← decodeStrField j "error"
  let error_description ← decodeOptStrField j "error_description"
  pure ⟨error, error_description⟩

/-- Model of `serde_json::from_value::<CodePairResponse>`. -/
def decodeCodePairResponse (j : Json) : Option CodePairResponse := do
  let user_code ← decodeStrField j "user_code"
  let device_code ← decodeStrField j "device_code"
  let verification_uri ← decodeStrField j "verification_uri"
  let expires_in ← decodeIntField j "expires_in"
  let interval ← decodeNatField j "interval"
  pure ⟨user_code, device_code, verification_uri, expires_in, interval⟩

/-- Model of `serde_json::from_value::<TokenResponse>`. -/
def decodeTokenResponse (j : Json) : Option TokenResponse := do
  let access_token ← decodeStrField j "access_token"
  let refresh_token ← decodeStrField j "refresh_token"
  let token_type ← decodeStrField j "token_type"
  let expires_in ← decodeNatField j "expires_in"
  pure ⟨access_token, refresh_token, token_type, expires_in⟩

/-- Outcome of classifying a response body: `ok` (the `Ok` return), `err`
(the `Err` return), or `panicked` (a Rust `panic!` aborting the call). -/
inductive ClassifyOutcome (α : Type) where
  | ok : α → ClassifyOutcome α
  | err : AuthorizationError → ClassifyOutcome α
  | panicked : String → ClassifyOutcome α
deriving DecidableEq, Repr

/-- The `return Err(AuthorizationError::from_error_response(&err_res))`
step shared by all three operations: a known code becomes an `Err`; an
unknown code panics inside `from_error_response`. -/
def classifyError {α : Type} (er : ErrorResponse) : ClassifyOutcome α :=
  match AuthorizationError.from_error_response er with
  | some e => .err e
  | none => .panicked ("Unknown error type: " ++ er.error)

/-- Body handling of `get_codepair` (auth.rs lines 30-41): try the error
envelope first, then `CodePairResponse`, else
`panic!("Unknown response")`. -/
def get_codepair_classify (body : Json) : ClassifyOutcome CodePairResponse :=
  match decodeErrorResponse body with
  | some er => classifyError er
  | none =>
    match decodeCodePairResponse body with
    | some code_pair => .ok code_pair
    | none => .panicked "Unknown response"

/-- Body handling of `perform_code_exchange` (auth.rs lines 65-76): error
envelope first, then `TokenResponse`, else panic. -/
def perform_code_exchange_classify (body : Json) : ClassifyOutcome TokenResponse :=
  match decodeErrorResponse body with
  | some er => classifyError er
  | none =>
    match decodeTokenResponse body with
    | some token_res => .ok token_res
    | none => .panicked "Unknown response"

/-- Body handling of `perform_token_refresh` (auth.rs lines 100-111): error
envelope first, then `TokenResponse`, else panic. -/
def perform_token_refresh_classify (body : Json) : ClassifyOutcome TokenResponse :=
  match decodeErrorResponse body with
  | some er => classifyError er
  | none =>
    match decodeTokenResponse body with
    | some token_res => .ok token_res
    | none => .panicked "Unknown response"

/-- Constant `BASE_URL` (apis.rs line 3). -/
def BASE_URL : String := "https://api.amazonalexa.com"

/-- Enum `skill_package_management::SkillStage` (apis.rs lines 13-18). -/
inductive SkillStage where
  | Development : SkillStage
  | Live : SkillStage
deriving DecidableEq, Repr

/-- strum's `Display` with `serialize_all = "camelCase"`. -/
def SkillStage.toString : SkillStage → String
  | .Development => "development"
  | .Live => "live"

/-- Outcome of `export_skill_package` up to the point the request is sent:
the two guard panics (`expect` on the profile lookup, `panic!` on an
invalid profile, message prefixes kept), the panic of
`access_token.clone().unwrap()`, or the outgoing request (URL and
`Authorization` header). -/
inductive ExportOutcome where
  | notFoundPanic : String → ExportOutcome
  | notValidPanic : String → ExportOutcome
  | unwrapPanic : ExportOutcome
  | request : String → String → ExportOutcome
deriving DecidableEq, Repr

def ExportOutcome.isUnwrapPanic : ExportOutcome → Bool
  | .unwrapPanic => true
  | _ => false

/-- Function `export_skill_package` (apis.rs lines 26-53) up to sending the
request: look up the profile in the config (its `CONFIG` global is passed
as `cfg`, `Utc::now()` as `now`), `expect`-panic when absent, panic when
`!profile.is_valid()`, then build the URL and the `Authorization: Bearer`
header, unwrapping the stored access token. -/
def export_skill_package (cfg : Config) (now : Int) (profile_name skill_id : String)
    (stage : SkillStage) : ExportOutcome :=
  match cfg.get_profile profile_name with
  | none => .notFoundPanic ("Profile '" ++ profile_name ++ "' not found in config")
  | some profile =>
    if !profile.is_valid now then
      .notValidPanic ("Profile '" ++ profile_name ++ "' is not valid")
    else
      let url := BASE_URL ++ "/v1/skills/" ++ skill_id ++ "/stages/" ++
        stage.toString ++ "/exports"
      match profile.access_token with
      | some token => .request url ("Bearer " ++ token)
      | none => .unwrapPanic

/-- Helper: a valid profile has a stored access token (`is_valid` starts
with `is_initialized`, which is `access_token.is_some()`). -/
theorem valid_isSome (p : ConfigProfile) (now : Int) :
    p.is_valid now = true → p.access_token.isSome = true := by
  unfold ConfigProfile.is_valid
  intro h
  rw [Bool.and_eq_true] at h
  exact h.1

/-- C3 counterexample: the exact-expiry claim fails at `expires_in =
u64::MAX` (18446744073709551615). The `expires_in as i64` cast in
config.rs line 118 wraps to `-1`, so `init` at `now = 0` sets
`expires_at` to one second *before* now, not to `now + expires_in`
seconds. -/
theorem C3_update_tokens_counterexample :
    ((ConfigProfile.new "dev").init "tok" "ref" 18446744073709551615 "vnd"
        0).expires_at = some (0 - nsPerSec) ∧
    ((ConfigProfile.new "dev").init "tok" "ref" 18446744073709551615 "vnd"
        0).expires_at ≠
      some (0 + (18446744073709551615 : Int) * nsPerSec) := by
  constructor <;> decide

/-- C3 (amended): every call to `ConfigProfile::init` (the spec's
`update_profile_tokens`) overwrites the four token-lifecycle fields
together in the one record update — `init` is a single pure update, so no
partially updated intermediate profile exists — setting `expires_at` to
`now + (expires_in as i64)` seconds, where the cast wraps `u64` values of
`2^63` and above; for every `expires_in` below `2^63` (every realistic
token lifetime) this is exactly `now + expires_in` seconds. -/
theorem C3_update_tokens_all_or_nothing (p : ConfigProfile)
    (access_token refresh_token : String) (expires_in : Nat) (vendor_id : String)
    (now : Int) :
    p.init access_token refresh_token expires_in vendor_id now =
      { p with
        vendor_id := some vendor_id
        access_token := some access_token
        refresh_token := some refresh_token
        expires_at := some (now + u64AsI64 expires_in * nsPerSec) } ∧
    (expires_in < 2 ^ 63 →
      p.init access_token refresh_token expires_in vendor_id now =
        { p with
          vendor_id := some vendor_id
          access_token := some access_token
          refresh_token := some refresh_token
          expires_at := some (now + (expires_in : Int) * nsPerSec) }) := by
  refine ⟨rfl, ?_⟩
  intro h
  have h64 : expires_in % 2 ^ 64 = expires_in :=
    Nat.mod_eq_of_lt (lt_trans h (by norm_num))
  unfold ConfigProfile.init u64AsI64
  rw [h64, if_pos h]

/-- Witness for the amended C3 at a one-hour lifetime. -/
theorem C3_update_tokens_all_or_nothing_witness :
    (ConfigProfile.new "dev").init "tok" "ref" 3600 "vnd" 5 =
      { ConfigProfile.new "dev" with
        vendor_id := some "vnd"
        access_token := some "tok"
        refresh_token := some "ref"
        expires_at := some (5 + (3600 : Int) * nsPerSec) } :=
  (C3_update_tokens_all_or_nothing (ConfigProfile.new "dev") "tok" "ref" 3600
    "vnd" 5).2 (by decide)

/-- C8: `is_initialized` is exactly `access_token.isSome`; `is_valid` holds
exactly when the profile is initialized and `expires_at` is a time strictly
after `now`; hence validity implies initialization. Both predicates are
(pure) functions of the profile and the current time, recomputed at each
call. -/
theorem C8_validity_predicates (p : ConfigProfile) (now : Int) :
    p.is_initialized = p.access_token.isSome ∧
    (p.is_valid now = true ↔
      p.is_initialized = true ∧ ∃ t, p.expires_at = some t ∧ now < t) ∧
    (p.is_valid now = true → p.is_initialized = true) := by
  refine ⟨rfl, ?_, ?_⟩
  · cases h : p.expires_at <;>
      simp [ConfigProfile.is_valid, h]
  · intro hv
    unfold ConfigProfile.is_valid at hv
    rw [Bool.and_eq_true] at hv
    exact hv.1

/-- Witness for C8 at a concrete initialized profile and time. -/
theorem C8_validity_predicates_witness :
    ((ConfigProfile.new "dev").init "tok" "ref" 10 "vnd" 0).is_initialized = true :=
  (C8_validity_predicates ((ConfigProfile.new "dev").init "tok" "ref" 10 "vnd" 0) 5).2.2
    (by decide)

/-- C9: the `unwrap` of `access_token` in `export_skill_package` is
unreachable: it sits behind the `is_valid()` check, and validity implies
the access token is present. -/
theorem C9_unwrap_unreachable (cfg : Config) (now : Int)
    (profile_name skill_id : String) (stage : SkillStage) :
    (export_skill_package cfg now profile_name skill_id stage).isUnwrapPanic = false := by
  unfold export_skill_package
  cases h : cfg.get_profile profile_name with
  | none => rfl
  | some p =>
    by_cases hv : p.is_valid now = true
    · have ht := valid_isSome p now hv
      obtain ⟨t, ht'⟩ := Option.isSome_iff_exists.mp ht
      simp [hv, ht', ExportOutcome.isUnwrapPanic]
    · simp [Bool.not_eq_true] at hv
      simp [hv, ExportOutcome.isUnwrapPanic]

/-- C10: `ConfigProfile::init` leaves `name` and `token_type` unchanged
(it has no `token_type` parameter, so a server-returned token type is
never stored), and `ConfigProfile::new` sets `token_type` to "Bearer". -/
theorem C10_init_frame (p : ConfigProfile) (access_token refresh_token : String)
    (expires_in : Nat) (vendor_id : String) (now : Int) (n : String) :
    (p.init access_token refresh_token expires_in vendor_id now).name = p.name ∧
    (p.init access_token refresh_token expires_in vendor_id now).token_type =
      p.token_type ∧
    (ConfigProfile.new n).token_type = "Bearer" :=
  ⟨rfl, rfl, rfl⟩

/-- C2: `export_skill_package` fails with the "profile not found" panic
when no profile of the given name exists, fails with the "profile not
valid" panic when the profile exists but `is_valid()` is false — in both
cases returning a non-`request` outcome, i.e. before any network call —
and for a valid profile issues the request with an `Authorization` header
of "Bearer " followed by the stored access token. -/
theorem C2_token_validity_gate (cfg : Config) (now : Int)
    (profile_name skill_id : String) (stage : SkillStage) :
    (cfg.get_profile profile_name = none →
      export_skill_package cfg now profile_name skill_id stage =
        .notFoundPanic ("Profile '" ++ profile_name ++ "' not found in config")) ∧
    (∀ p, cfg.get_profile profile_name = some p → p.is_valid now = false →
      export_skill_package cfg now profile_name skill_id stage =
        .notValidPanic ("Profile '" ++ profile_name ++ "' is not valid")) ∧
    (∀ p token, cfg.get_profile profile_name = some p → p.is_valid now = true →
      p.access_token = some token →
      export_skill_package cfg now profile_name skill_id stage =
        .request (BASE_URL ++ "/v1/skills/" ++ skill_id ++ "/stages/" ++
            stage.toString ++ "/exports")
          ("Bearer " ++ token)) := by
  refine ⟨?_, ?_, ?_⟩
  · intro h
    simp [export_skill_package, h]
  · intro p hp hv
    simp [export_skill_package, hp, hv]
  · intro p token hp hv ht
    simp [export_skill_package, hp, hv, ht]

/-- Witness for C2: a missing profile panics "not found"; a freshly
initialized profile yields the bearer request. -/
theorem C2_token_validity_gate_witness :
    export_skill_package ⟨[(ConfigProfile.new "dev").init "tok" "ref" 3600 "vnd" 0]⟩
        5 "missing" "SK123" .Development =
      .notFoundPanic "Profile 'missing' not found in config" ∧
    export_skill_package ⟨[(ConfigProfile.new "dev").init "tok" "ref" 3600 "vnd" 0]⟩
        5 "dev" "SK123" .Development =
      .request "https://api.amazonalexa.com/v1/skills/SK123/stages/development/exports"
        "Bearer tok" :=
  ⟨(C2_token_validity_gate ⟨[(ConfigProfile.new "dev").init "tok" "ref" 3600 "vnd" 0]⟩
      5 "missing" "SK123" .Development).1 (by decide),
   (C2_token_validity_gate ⟨[(ConfigProfile.new "dev").init "tok" "ref" 3600 "vnd" 0]⟩
      5 "dev" "SK123" .Development).2.2
     ((ConfigProfile.new "dev").init "tok" "ref" 3600 "vnd" 0) "tok"
     (by decide) (by decide) (by decide)⟩

/-- C4: `from_error_response` maps each of the ten known code strings to
exactly its variant (carrying nothing but the discriminant), and any other
code string hits the catch-all arm, which panics ("Unknown error type")
instead of producing a variant — modelled as `none`. -/
theorem C4_error_code_mapping (d : Option String) :
    AuthorizationError.from_error_response ⟨"invalid_request", d⟩ =
      some .InvalidRequest ∧
    AuthorizationError.from_error_response ⟨"unauthorized_client", d⟩ =
      some .UnauthorizedClient ∧
    AuthorizationError.from_error_response ⟨"access_denied", d⟩ =
      some .AccessDenied ∧
    AuthorizationError.from_error_response ⟨"unsupported_response_type", d⟩ =
      some .UnsupportedResponseType ∧
    AuthorizationError.from_error_response ⟨"invalid_scope", d⟩ =
      some .InvalidScope ∧
    AuthorizationError.from_error_response ⟨"server_error", d⟩ =
      some .ServerError ∧
    AuthorizationError.from_error_response ⟨"temporarily_unavailable", d⟩ =
      some .TemporarilyUnavailable ∧
    AuthorizationError.from_error_response ⟨"authorization_pending", d⟩ =
      some .AuthorizationPending ∧
    AuthorizationError.from_error_response ⟨"slow_down", d⟩ =
      some .SlowDown ∧
    AuthorizationError.from_error_response ⟨"expired_token", d⟩ =
      some .ExpiredToken ∧
    ∀ s, s ∉ (["invalid_request", "unauthorized_client", "access_denied",
        "unsupported_response_type", "invalid_scope", "server_error",
        "temporarily_unavailable", "authorization_pending", "slow_down",
        "expired_token"] : List String) →
      AuthorizationError.from_error_response ⟨s, d⟩ = none := by
  refine ⟨rfl, rfl, rfl, rfl, rfl, rfl, rfl, rfl, rfl, rfl, ?_⟩
  intro s hs
  unfold AuthorizationError.from_error_response
  dsimp only
  split <;> first
    | rfl
    | (exfalso; apply hs; simp_all)

/-- Witness for C4 at the unknown code "bogus". -/
theorem C4_error_code_mapping_witness :
    AuthorizationError.from_error_response ⟨"bogus", none⟩ = none :=
  (C4_error_code_mapping none).2.2.2.2.2.2.2.2.2.2 "bogus" (by decide)

/-- C5: in all three client operations, the error-envelope decode is tried
first: whenever the body decodes as an `ErrorResponse`, the outcome is the
error classification of that envelope (regardless of whether the body
would also decode as the success shape), and whenever the body decodes as
neither the envelope nor the operation's success shape, the outcome is the
"Unknown response" panic, never a normal success return. -/
theorem C5_error_envelope_first (body : Json) :
    (∀ er, decodeErrorResponse body = some er →
      get_codepair_classify body = classifyError er ∧
      perform_code_exchange_classify body = classifyError er ∧
      perform_token_refresh_classify body = classifyError er) ∧
    (decodeErrorResponse body = none →
      (decodeCodePairResponse body = none →
        get_codepair_classify body = .panicked "Unknown response") ∧
      (decodeTokenResponse body = none →
        perform_code_exchange_classify body = .panicked "Unknown response" ∧
        perform_token_refresh_classify body = .panicked "Unknown response")) := by
  constructor
  · intro er her
    refine ⟨?_, ?_, ?_⟩ <;>
      simp [get_codepair_classify, perform_code_exchange_classify,
        perform_token_refresh_classify, her]
  · intro hnone
    refine ⟨?_, ?_⟩
    · intro hcp
      simp [get_codepair_classify, hnone, hcp]
    · intro htk
      constructor <;>
        simp [perform_code_exchange_classify, perform_token_refresh_classify,
          hnone, htk]

/-- Witness for C5: a body carrying both a `slow_down` error envelope and a
complete token success shape classifies as the error; a body decoding as
neither panics "Unknown response". -/
theorem C5_error_envelope_first_witness :
    perform_code_exchange_classify
        (.obj [("error", .str "slow_down"), ("access_token", .str "a"),
          ("refresh_token", .str "r"), ("token_type", .str "bearer"),
          ("expires_in", .num 10)]) =
      .err .SlowDown ∧
    get_codepair_classify (.str "x") = .panicked "Unknown response" :=
  ⟨((C5_error_envelope_first
      (.obj [("error", .str "slow_down"), ("access_token", .str "a"),
        ("refresh_token", .str "r"), ("token_type", .str "bearer"),
        ("expires_in", .num 10)])).1 ⟨"slow_down", none⟩ rfl).2.1,
   ((C5_error_envelope_first (.str "x")).2 rfl).1 rfl⟩

/-- C6: `Config::add_profile` with a name already present fails with
`AlreadyExists` leaving both the in-memory collection and the store file
exactly as they were; with a fresh name it appends the profile and writes
the serialized new collection to the file. -/
theorem C6_add_profile_atomic (st : ConfigState) (profile : ConfigProfile) :
    ((st.config.get_profile profile.name).isSome = true →
      st.add_profile profile = (.error .AlreadyExists, st)) ∧
    (st.config.get_profile profile.name = none →
      st.add_profile profile =
        (.ok (), ⟨⟨st.config.profiles ++ [profile]⟩,
          some (configToJson ⟨st.config.profiles ++ [profile]⟩)⟩)) := by
  constructor
  · intro h
    simp [ConfigState.add_profile, h]
  · intro h
    simp [ConfigState.add_profile, h, ConfigState.write]

/-- Witness for C6: a duplicate of "a" is rejected with the store intact; a
fresh "b" is appended and persisted. -/
theorem C6_add_profile_atomic_witness :
    (⟨⟨[ConfigProfile.new "a"]⟩, none⟩ : ConfigState).add_profile
        (ConfigProfile.new "a") =
      (.error .AlreadyExists, ⟨⟨[ConfigProfile.new "a"]⟩, none⟩) ∧
    (⟨⟨[ConfigProfile.new "a"]⟩, none⟩ : ConfigState).add_profile
        (ConfigProfile.new "b") =
      (.ok (), ⟨⟨[ConfigProfile.new "a", ConfigProfile.new "b"]⟩,
        some (configToJson ⟨[ConfigProfile.new "a", ConfigProfile.new "b"]⟩)⟩) :=
  ⟨(C6_add_profile_atomic ⟨⟨[ConfigProfile.new "a"]⟩, none⟩
      (ConfigProfile.new "a")).1 (by decide),
   (C6_add_profile_atomic ⟨⟨[ConfigProfile.new "a"]⟩, none⟩
      (ConfigProfile.new "b")).2 (by decide)⟩

/-- Truncation of a profile's `expires_at` to whole seconds: the effect of
one pass through the `ts_seconds_option` codec. All other fields are
untouched. -/
def truncExpires (p : ConfigProfile) : ConfigProfile :=
  { p with expires_at := p.expires_at.map (fun t => timestampSec t * nsPerSec) }

/-- Helper: one profile survives a serialize/deserialize round trip up to
second-truncation of `expires_at`. -/
theorem profile_roundtrip (p : ConfigProfile) :
    profileFromJson (profileToJson p) = some (truncExpires p) := by
  obtain ⟨n, v, a, r, tt, e⟩ := p
  cases v <;> cases a <;> cases r <;> cases e <;>
    simp [profileToJson, profileFromJson, truncExpires, optStrToJson, tsOptToJson,
      decodeStrField, decodeOptStrField, decodeTsOptField, Json.getField, findField]

/-- Helper: a profile list survives the round trip element-wise. -/
theorem profiles_roundtrip (ps : List ConfigProfile) :
    decodeProfiles (ps.map profileToJson) = some (ps.map truncExpires) := by
  induction ps with
  | nil => rfl
  | cons p rest ih => simp [decodeProfiles, profile_roundtrip, ih]

/-- C7: writing a store with `Config::write` and reading it back with
`Config::from_file` succeeds and yields the same profile collection field
for field, except that each `expires_at` comes back truncated to its whole
second (`timestampSec t * nsPerSec`), which differs from the original by
less than one second — i.e. timestamps are preserved to one-second
resolution. -/
theorem C7_persistence_roundtrip (st : ConfigState) :
    Config.from_file (st.write).disk = .ok ⟨st.config.profiles.map truncExpires⟩ ∧
    ∀ t : Int, timestampSec t * nsPerSec ≤ t ∧
      t < timestampSec t * nsPerSec + nsPerSec := by
  constructor
  · simp [ConfigState.write, Config.from_file, configToJson, configFromJson,
      Json.getField, findField, profiles_roundtrip]
  · intro t
    unfold timestampSec nsPerSec
    rw [Int.fdiv_eq_ediv _ (by decide)]
    omega

/-- C1 counterexample: the write-through claim fails for the token-update
path. Start from a store holding the single fresh profile "dev" whose file
is exactly in sync, and update its tokens (`ConfigProfile::init` through
the spec's `update_profile_tokens`): the call succeeds, yet the file still
holds the old collection and does not reflect the mutated in-memory one,
because `init` performs no write. -/
theorem C1_write_through_counterexample :
    ¬ (((⟨⟨[ConfigProfile.new "dev"]⟩,
          some (configToJson ⟨[ConfigProfile.new "dev"]⟩)⟩ :
        ConfigState).update_profile_tokens "dev" "tok" "ref" 3600 "vnd" 0).disk =
      some (configToJson
        (((⟨⟨[ConfigProfile.new "dev"]⟩,
            some (configToJson ⟨[ConfigProfile.new "dev"]⟩)⟩ :
          ConfigState).update_profile_tokens "dev" "tok" "ref" 3600 "vnd"
            0).config))) := by
  simp [ConfigState.update_profile_tokens, configToJson, profileToJson,
    ConfigProfile.new, ConfigProfile.init, optStrToJson, tsOptToJson]

/-- C1 (amended): after a successful `Config::add_profile` the store file
holds the serialization of the mutated in-memory collection before the
call returns; but a token update via `ConfigProfile::init` (the spec's
`update_profile_tokens`) mutates only the in-memory profile and leaves the
file untouched — it is persisted only by a later explicit `Config::write`
or the best-effort flush in `Config`'s `Drop`. -/
theorem C1_write_through_amended (st : ConfigState) (profile : ConfigProfile) :
    (∀ st', st.add_profile profile = (.ok (), st') →
      st'.disk = some (configToJson st'.config)) ∧
    (∀ name access_token refresh_token expires_in vendor_id now,
      (st.update_profile_tokens name access_token refresh_token expires_in
        vendor_id now).disk = st.disk) := by
  constructor
  · intro st' h
    unfold ConfigState.add_profile at h
    split at h
    · exact absurd (congrArg Prod.fst h) (by simp)
    · have h2 := congrArg Prod.snd h
      dsimp at h2
      subst h2
      rfl
  · intro name access_token refresh_token expires_in vendor_id now
    rfl

/-- Witness for the amended C1: adding "a" to the empty store leaves the
file equal to the serialized one-profile collection. -/
theorem C1_write_through_amended_witness :
    ((⟨⟨[]⟩, none⟩ : ConfigState).add_profile (ConfigProfile.new "a")).2.disk =
      some (configToJson
        ((⟨⟨[]⟩, none⟩ : ConfigState).add_profile (ConfigProfile.new "a")).2.config) :=
  (C1_write_through_amended ⟨⟨[]⟩, none⟩ (ConfigProfile.new "a")).1
    ((⟨⟨[]⟩, none⟩ : ConfigState).add_profile (ConfigProfile.new "a")).2 rfl

end AlexaUtil
